import Mathlib

/-!
Shallow embedding of the launcher's core logic, translated from
`src/assets/launcher/launcher.c` and `src/assets/launcher/tray_menu.c`.

Conventions of the embedding:
* OS process identifiers and handles are `Nat`.
* A toolhelp snapshot (`CreateToolhelp32Snapshot` enumeration) is a
  `List ProcEntry` of `(pid, ppid)` pairs; the successful-snapshot path of the
  C code is modelled (an `INVALID_HANDLE_VALUE` snapshot makes the C function
  return without doing anything, which no claim depends on).
* Side-effecting leaf calls (`TerminateProcess`, `CloseHandle`, `show_message`,
  the individual `action_*` helpers that only spawn or kill collaborator
  processes) are recorded as events in explicit traces, so the order and
  presence of calls can be stated and decided.
* The unbounded C recursion of `terminate_process_tree` is given an explicit
  recursion-depth argument `fuel`; every theorem about it quantifies over the
  depth or instantiates it large enough for the concrete snapshot at hand.
-/

namespace Launcher

/-! ## Process snapshot and tree termination (`terminate_process_tree`) -/

/-- One row of a process snapshot: process id and parent process id
(`PROCESSENTRY32.th32ProcessID` / `th32ParentProcessID`). -/
structure ProcEntry where
  pid : Nat
  ppid : Nat
deriving DecidableEq, Repr

/-- The first pass of `terminate_process_tree` (launcher.c:577-587): walk the
snapshot and collect the pids of entries whose parent id equals `pid`, into a
fixed 256-slot buffer; the `child_count < 256` bounds check makes this the
first 256 matches in snapshot order. -/
def childPids (snap : List ProcEntry) (pid : Nat) : List Nat :=
  ((snap.filter (fun e => e.ppid == pid)).map (fun e => e.pid)).take 256

/-- Concatenation of the per-child termination orders, in buffer order
(the `for` loop of launcher.c:592-594). -/
def joinOrders : List (List Nat) → List Nat
  | [] => []
  | l :: ls => l ++ joinOrders ls

/-- The order in which `terminate_process_tree` (launcher.c:570-602) issues
termination requests, starting from root `pid`: children collected from the
snapshot are recursively torn down first, then the root itself is terminated
(`OpenProcess`/`TerminateProcess`, failures ignored). `fuel` bounds the
recursion depth, which the C code leaves unbounded. -/
def terminate_process_tree (snap : List ProcEntry) : Nat → Nat → List Nat
  | 0, _ => []
  | fuel + 1, pid =>
      joinOrders ((childPids snap pid).map (terminate_process_tree snap fuel)) ++ [pid]

/-- The synthetic graph of the spec's test scenario: root = 1 with children
A = 2 and B = 3, and A has child C = 4. -/
def synthSnap : List ProcEntry :=
  [⟨1, 0⟩, ⟨2, 1⟩, ⟨3, 1⟩, ⟨4, 2⟩]

/-- A snapshot in which pid 1 has 257 direct children, pids 2 through 258. -/
def snap257 : List ProcEntry :=
  ⟨1, 0⟩ :: (List.range 257).map (fun i => ⟨i + 2, 1⟩)

/-! ## Process registry (`TrackedProcess` linked list) -/

/-- The fields of a `PROCESS_INFORMATION` that the launcher uses: the process
id and the two handles that get closed on teardown. -/
structure ProcInfo where
  pid : Nat
  hProcess : Nat
  hThread : Nat
deriving DecidableEq, Repr

/-- The `G_TRACKED_PROCESSES` singly-linked list, head = most recently added. -/
abbrev Registry := List (String × ProcInfo)

/-- `add_tracked_process` (launcher.c:298-307): allocate a fresh node, copy the
name and process information, and prepend it to the list. No duplicate check
is made and nothing is released. -/
def add_tracked_process (name : String) (info : ProcInfo) (reg : Registry) : Registry :=
  (name, info) :: reg

/-- `find_tracked_process` (launcher.c:322-331): first entry from the head
whose name matches. -/
def find_tracked_process (name : String) (reg : Registry) : Option (String × ProcInfo) :=
  reg.find? (fun e => e.1 == name)

/-- `remove_tracked_process` (launcher.c:309-320): unlink and free the first
node whose name matches; handles are not closed. -/
def remove_tracked_process (name : String) : Registry → Registry
  | [] => []
  | e :: rest =>
      if e.1 == name then rest else e :: remove_tracked_process name rest

/-- A teardown side effect of the registry drain: a `terminate_process_tree`
request on a pid, or a `CloseHandle` on a handle. -/
inductive RegEv
  | terminateTree (pid : Nat)
  | closeHandle (h : Nat)
deriving DecidableEq, Repr

/-- The first loop of `kill_all_tracked_processes` (launcher.c:336-342):
for every entry, terminate its tree and close both handles, in list order. -/
def kill_events : Registry → List RegEv
  | [] => []
  | (_, info) :: rest =>
      RegEv.terminateTree info.pid :: RegEv.closeHandle info.hProcess ::
        RegEv.closeHandle info.hThread :: kill_events rest

/-- `kill_all_tracked_processes` (launcher.c:333-350): emit the teardown
events for every entry, then free the whole list, leaving the registry empty. -/
def kill_all_tracked_processes (reg : Registry) : List RegEv × Registry :=
  (kill_events reg, [])

/-- Sample process information records used in concrete scenarios. -/
def piA : ProcInfo := ⟨10, 100, 101⟩

/-- A second sample process information record, distinct from `piA`. -/
def piB : ProcInfo := ⟨20, 200, 201⟩

/-! ## Theorems about tree termination -/

/-- Membership in a concatenation of per-child orders. -/
theorem mem_joinOrders {q : Nat} : ∀ ls : List (List Nat),
    q ∈ joinOrders ls ↔ ∃ l ∈ ls, q ∈ l
  | [] => by simp [joinOrders]
  | l :: ls => by
      simp [joinOrders, List.mem_append, mem_joinOrders ls]

/-- C2: `terminate_process_tree` is strictly children-before-parent: at every
recursion depth the root is the last termination request, every pid terminated
inside a discovered child's subtree is requested strictly before the root, and
on the synthetic graph root = 1 → {A = 2, B = 3}, A → {C = 4} the order ends
with the root last and C before A. -/
theorem terminate_tree_children_before_parent :
    (∀ snap fuel pid, (terminate_process_tree snap (fuel + 1) pid).getLast? = some pid)
  ∧ (∀ snap fuel pid c, c ∈ childPids snap pid →
       ∀ q ∈ terminate_process_tree snap fuel c,
         q ∈ (terminate_process_tree snap (fuel + 1) pid).dropLast)
  ∧ (terminate_process_tree synthSnap 8 1).getLast? = some 1
  ∧ (terminate_process_tree synthSnap 8 1).indexOf 4 <
      (terminate_process_tree synthSnap 8 1).indexOf 2 := by
  refine ⟨?_, ?_, by decide, by decide⟩
  · intro snap fuel pid
    simp [terminate_process_tree]
  · intro snap fuel pid c hc q hq
    have hdrop : (terminate_process_tree snap (fuel + 1) pid).dropLast
        = joinOrders ((childPids snap pid).map (terminate_process_tree snap fuel)) := by
      simp [terminate_process_tree]
    rw [hdrop, mem_joinOrders _]
    exact ⟨terminate_process_tree snap fuel c, List.mem_map_of_mem _ hc, hq⟩

/-- C2 witness: instantiation on the synthetic graph, with the hypotheses of
the subtree-before-root part discharged concretely (child A = 2 of root 1,
and C = 4 terminated inside A's subtree). -/
theorem terminate_tree_children_before_parent_witness :
    (2 ∈ childPids synthSnap 1)
  ∧ (4 ∈ terminate_process_tree synthSnap 7 2)
  ∧ (4 ∈ (terminate_process_tree synthSnap 8 1).dropLast) :=
  ⟨by decide, by decide,
    terminate_tree_children_before_parent.2.1 synthSnap 7 1 2 (by decide) 4 (by decide)⟩

/-- C8: the child buffer of `terminate_process_tree` holds at most 256 direct
children at each level (so the bounds-checked write can never run past the
buffer), and a direct child beyond the 256th in the snapshot is silently not
terminated: in `snap257` (257 children, pids 2-258), exactly 256 children are
collected, pid 258 never receives a termination request, while pid 257 does. -/
theorem terminate_tree_fanout_cap :
    (∀ snap pid, (childPids snap pid).length ≤ 256)
  ∧ (childPids snap257 1).length = 256
  ∧ (258 ∉ terminate_process_tree snap257 2 1)
  ∧ (257 ∈ terminate_process_tree snap257 2 1) := by
  refine ⟨?_, ?_, ?_, ?_⟩
  · intro snap pid
    simp only [childPids]
    exact (List.length_take _ _).le.trans (min_le_left _ _)
  · set_option maxRecDepth 100000 in decide
  · set_option maxRecDepth 100000 in decide
  · set_option maxRecDepth 100000 in decide

/-! ## Theorems about the process registry -/

/-- C4 counterexample: adding "x" twice (handles `piA` then `piB`) leaves the
registry simultaneously holding two entries named "x", and the prior entry
`("x", piA)` is still present rather than overwritten in place. -/
theorem add_duplicate_counterexample :
    ((add_tracked_process "x" piB (add_tracked_process "x" piA [])).filter
        (fun e => e.1 == "x")).length = 2
  ∧ ("x", piA) ∈ add_tracked_process "x" piB (add_tracked_process "x" piA []) := by
  constructor
  · simp [add_tracked_process]
  · simp [add_tracked_process]

/-- C4 amended: `add_tracked_process` prepends a fresh entry without any
duplicate check: the registry grows by one, every previously tracked entry
(including one with the same name, whose handle is not released) remains
tracked, and the new entry shadows older same-named ones for `find`. -/
theorem add_prepends_without_dedup (name : String) (info : ProcInfo) (reg : Registry) :
    (add_tracked_process name info reg).length = reg.length + 1
  ∧ (∀ e, e ∈ reg → e ∈ add_tracked_process name info reg)
  ∧ find_tracked_process name (add_tracked_process name info reg) = some (name, info) := by
  refine ⟨by simp [add_tracked_process], ?_, ?_⟩
  · intro e he
    exact List.mem_cons_of_mem _ he
  · simp [find_tracked_process, add_tracked_process, List.find?_cons_of_pos]

/-- C4 amended witness: a previously tracked same-named entry survives the
duplicate add. -/
theorem add_prepends_without_dedup_witness :
    ("x", piA) ∈ [("x", piA)]
  ∧ ("x", piA) ∈ add_tracked_process "x" piB [("x", piA)] :=
  ⟨by simp, (add_prepends_without_dedup "x" piB [("x", piA)]).2.1 ("x", piA) (by simp)⟩

/-- C5: draining the registry is idempotent: one call leaves the registry
empty, and a second call on the result leaves it empty again while issuing no
`terminate_process_tree` and no `CloseHandle` events at all. -/
theorem kill_all_idempotent (reg : Registry) :
    (kill_all_tracked_processes reg).2 = []
  ∧ kill_all_tracked_processes (kill_all_tracked_processes reg).2 = ([], []) :=
  ⟨rfl, rfl⟩

/-- C10: with two simultaneously tracked entries of the same name (`info2`
added after `info1`), `find` returns the most recently added entry, and
`remove` detaches only that most recent entry, leaving the older same-named
entry tracked with its handle unreleased (`remove_tracked_process` closes no
handles). -/
theorem duplicate_name_shadowing (name : String) (info1 info2 : ProcInfo) (reg : Registry) :
    find_tracked_process name
        (add_tracked_process name info2 (add_tracked_process name info1 reg))
      = some (name, info2)
  ∧ remove_tracked_process name
        (add_tracked_process name info2 (add_tracked_process name info1 reg))
      = add_tracked_process name info1 reg := by
  constructor
  · simp [find_tracked_process, add_tracked_process, List.find?_cons_of_pos]
  · simp [remove_tracked_process, add_tracked_process]

/-! ## Instance lock (`check_instances` / `write_pid_file`) -/

/-- The Windows constant `STILL_ACTIVE`: the exit code reported by
`GetExitCodeProcess` for a process that has not terminated. -/
def STILL_ACTIVE : Nat := 259

/-- The OS process-query facility used by `check_instances`: whether
`OpenProcess(PROCESS_QUERY_INFORMATION, pid)` succeeds, and what
`GetExitCodeProcess` reports for the pid (`none`: the call failed). -/
structure OSQuery where
  canOpen : Nat → Bool
  exitCode : Nat → Option Nat

/-- A stored pid refers to a currently live, not-yet-terminated process:
it can be opened and its exit code still reads `STILL_ACTIVE`
(launcher.c:1156-1159). -/
def processAlive (os : OSQuery) (pid : Nat) : Bool :=
  os.canOpen pid && (os.exitCode pid == some STILL_ACTIVE)

/-- The lock file `rjpids.ini`: `none` when no file exists (or it cannot be
opened), `some none` when the file opens but no pid can be parsed from it
(`fscanf` fails), `some (some pid)` when it stores `pid`. -/
abbrev LockFile := Option (Option Nat)

/-- `write_pid_file` (launcher.c:1176-1184): overwrite the lock file with the
current process id. -/
def write_pid_file (myPid : Nat) : LockFile :=
  some (some myPid)

/-- `check_instances` (launcher.c:1145-1174): if the lock file stores a pid of
a process that can be opened and is still active, fail and leave the file
untouched; in every other case (no file, unreadable id, unopenable pid, dead
or unqueryable process) write the current pid and succeed. -/
def check_instances (os : OSQuery) (myPid : Nat) (file : LockFile) : Bool × LockFile :=
  match file with
  | some (some old) =>
      if os.canOpen old then
        if os.exitCode old == some STILL_ACTIVE then
          (false, some (some old))
        else
          (true, write_pid_file myPid)
      else
        (true, write_pid_file myPid)
  | some none => (true, write_pid_file myPid)
  | none => (true, write_pid_file myPid)

/-- C3: `check_instances` succeeds and stores the current pid when no lock
file exists, when the stored id is unreadable, or when the stored id's process
is not alive; it fails without modifying the file exactly when the stored id
refers to a live, not-yet-terminated process. -/
theorem check_instances_spec (os : OSQuery) (myPid : Nat) :
    check_instances os myPid none = (true, some (some myPid))
  ∧ check_instances os myPid (some none) = (true, some (some myPid))
  ∧ (∀ old, processAlive os old = false →
       check_instances os myPid (some (some old)) = (true, some (some myPid)))
  ∧ (∀ old, processAlive os old = true →
       check_instances os myPid (some (some old)) = (false, some (some old))) := by
  refine ⟨rfl, rfl, ?_, ?_⟩
  · intro old hdead
    simp only [processAlive, Bool.and_eq_false_imp] at hdead
    by_cases hopen : os.canOpen old
    · simp [check_instances, write_pid_file, hopen, hdead hopen]
    · simp [check_instances, write_pid_file, hopen]
  · intro old halive
    simp only [processAlive, Bool.and_eq_true] at halive
    simp [check_instances, halive.1, halive.2]

/-- A concrete OS-query valuation: only pid 5 can be opened, and it reads as
still active. -/
def osLiveFive : OSQuery :=
  ⟨fun p => p == 5, fun p => if p == 5 then some STILL_ACTIVE else none⟩

/-- C3 witness: with a lock file storing dead pid 7, instance 9 reclaims the
lock; with the file storing live pid 5, it fails without touching the file. -/
theorem check_instances_spec_witness :
    processAlive osLiveFive 7 = false
  ∧ check_instances osLiveFive 9 (some (some 7)) = (true, some (some 9))
  ∧ processAlive osLiveFive 5 = true
  ∧ check_instances osLiveFive 5 (some (some 5)) = (false, some (some 5)) :=
  ⟨by decide, (check_instances_spec osLiveFive 9).2.2.1 7 (by decide),
   by decide, (check_instances_spec osLiveFive 5).2.2.2 5 (by decide)⟩

/-! ## Sequence tokenization (`trim_whitespace`, `execute_sequence`) -/

/-- The whitespace characters trimmed by `trim_whitespace`
(launcher.c:227-246): space, tab, newline, carriage return. -/
def trimChar (c : Char) : Bool :=
  c == ' ' || c == '\t' || c == '\n' || c == '\r'

/-- `trim_whitespace` (launcher.c:227-246): drop leading whitespace
(`memmove` shift), then drop trailing whitespace (in-place truncation). -/
def trim_whitespace (s : String) : String :=
  ⟨((s.data.dropWhile trimChar).reverse.dropWhile trimChar).reverse⟩

/-- Split a character list at every comma into fields, empties included,
accumulating the current field in reverse. -/
def splitCommasAux : List Char → List Char → List (List Char)
  | [], acc => [acc.reverse]
  | c :: rest, acc =>
      if c == ',' then acc.reverse :: splitCommasAux rest []
      else splitCommasAux rest (c :: acc)

/-- The fields produced by repeated `strtok_s(…, ",", …)` on `s`: `strtok`
skips delimiter runs, so it returns exactly the non-empty comma-separated
fields, in order. -/
def strtok_commas (s : String) : List String :=
  ((splitCommasAux s.data []).filter (fun cs => cs != [])).map (fun cs => ⟨cs⟩)

/-- The action names dispatched by `execute_sequence` (launcher.c:1077-1095),
in dispatch order: on the empty string the function returns at once; otherwise
each `strtok` token is trimmed and dispatched only if still non-empty. -/
def execute_sequence_tokens (s : String) : List String :=
  if s = "" then []
  else ((strtok_commas s).map trim_whitespace).filter (fun t => t != "")

/-- C6: `execute_sequence` dispatches exactly the comma-separated tokens with
leading and trailing whitespace removed, in left-to-right order, and never
dispatches an empty-string action; on `"Pre1, Controller-Mapper ,Taskbar"` it
dispatches `Pre1`, `Controller-Mapper`, `Taskbar` in that order. -/
theorem execute_sequence_tokens_spec :
    (∀ s t, t ∈ execute_sequence_tokens s → t ≠ "")
  ∧ execute_sequence_tokens "Pre1, Controller-Mapper ,Taskbar"
      = ["Pre1", "Controller-Mapper", "Taskbar"] := by
  constructor
  · intro s t ht
    by_cases hs : s = ""
    · simp [execute_sequence_tokens, hs] at ht
    · simp only [execute_sequence_tokens, hs, if_false, List.mem_filter] at ht
      simpa using ht.2
  · decide

/-- C6 witness: the first dispatched token of the example sequence is a member
of the dispatch list and indeed non-empty. -/
theorem execute_sequence_tokens_spec_witness :
    "Pre1" ∈ execute_sequence_tokens "Pre1, Controller-Mapper ,Taskbar"
  ∧ "Pre1" ≠ "" :=
  ⟨by decide,
    execute_sequence_tokens_spec.1 "Pre1, Controller-Mapper ,Taskbar" "Pre1" (by decide)⟩

/-! ## Action dispatch and the run-scoped flags (`execute_action`) -/

/-- A visible side effect of dispatching one action: a `show_message` line, or
a call into one of the leaf `action_*` helpers that only touch collaborator
processes (spawn, wait, kill-by-name); the latter are opaque to the claims and
recorded by name. -/
inductive LEvent
  | msg (s : String)
  | act (s : String)
deriving DecidableEq, Repr

/-- The run-scoped state that the dispatched actions read and write: the
`HideTaskbar` configuration option, whether the `Shell_TrayWnd` window lookup
succeeds, the taskbar's visibility, the `G_TASKBAR_WAS_HIDDEN` flag, and the
trace of emitted events. -/
structure World where
  hide_taskbar : Bool
  taskbarFound : Bool
  taskbarVisible : Bool
  taskbarWasHidden : Bool
  events : List LEvent
deriving DecidableEq, Repr

/-- Append one event to the world's trace. -/
def logEvent (e : LEvent) (w : World) : World :=
  { w with events := w.events ++ [e] }

/-- `set_taskbar_visibility` (launcher.c:623-633): if the taskbar window is
found, `ShowWindow` it to the requested visibility, and record
`G_TASKBAR_WAS_HIDDEN` whenever it was hidden; otherwise do nothing. -/
def set_taskbar_visibility (vis : Bool) (w : World) : World :=
  if w.taskbarFound then
    { w with taskbarVisible := vis,
             taskbarWasHidden := if vis then w.taskbarWasHidden else true }
  else w

/-- `action_hide_taskbar` (launcher.c:759-763): hide only when the
`HideTaskbar` option is set. -/
def action_hide_taskbar (w : World) : World :=
  if w.hide_taskbar then set_taskbar_visibility false w else w

/-- `action_show_taskbar` (launcher.c:765-767). -/
def action_show_taskbar (w : World) : World :=
  set_taskbar_visibility true w

/-- The action names that `execute_action` (launcher.c:1011-1075) recognizes,
in the order of its `if`/`else if` chain. -/
def knownActions : List String :=
  ["Kill-Game", "Kill-List", "Controller-Mapper", "Monitor-Config", "No-TB",
   "Taskbar", "Borderless", "Cloud-Sync", "mount-disc", "Unmount-disc",
   "Pre1", "Pre2", "Pre3", "Post1", "Post2", "Post3",
   "JustAfterLaunch", "JustBeforeExit"]

/-- `execute_action` (launcher.c:1011-1075): log the action name, then walk
the `if`/`else if` chain; taskbar actions update the visibility flags, all
other recognized actions call their leaf helper (recorded as an `act` event,
branching on `is_exit` exactly where the C does), and an unrecognized name
logs an "Unknown action" diagnostic and falls through. -/
def execute_action (action : String) (is_exit : Bool) (w : World) : World :=
  let w := logEvent (LEvent.msg action) w
  if action = "Kill-Game" then logEvent (LEvent.act "action_kill_game") w
  else if action = "Kill-List" then logEvent (LEvent.act "action_kill_process_list") w
  else if action = "Controller-Mapper" then
    if is_exit then logEvent (LEvent.act "action_kill_controller_mapper") w
    else logEvent (LEvent.act "action_run_controller_mapper") w
  else if action = "Monitor-Config" then
    if is_exit then logEvent (LEvent.act "action_run_monitor_config_desktop") w
    else logEvent (LEvent.act "action_run_monitor_config_game") w
  else if action = "No-TB" then
    if is_exit then w else action_hide_taskbar w
  else if action = "Taskbar" then
    if is_exit then action_show_taskbar w else w
  else if action = "Borderless" then
    if is_exit then logEvent (LEvent.act "action_kill_borderless") w
    else logEvent (LEvent.act "action_run_borderless") w
  else if action = "Cloud-Sync" then logEvent (LEvent.act "action_run_cloud_sync") w
  else if action = "mount-disc" then
    if is_exit then w else logEvent (LEvent.act "action_mount_disc_with_app") w
  else if action = "Unmount-disc" then
    if is_exit then logEvent (LEvent.act "action_unmount_disc_with_app") w else w
  else if action = "Pre1" then logEvent (LEvent.act "action_run_generic_app pre1") w
  else if action = "Pre2" then logEvent (LEvent.act "action_run_generic_app pre2") w
  else if action = "Pre3" then logEvent (LEvent.act "action_run_generic_app pre3") w
  else if action = "Post1" then logEvent (LEvent.act "action_run_generic_app post1") w
  else if action = "Post2" then logEvent (LEvent.act "action_run_generic_app post2") w
  else if action = "Post3" then logEvent (LEvent.act "action_run_generic_app post3") w
  else if action = "JustAfterLaunch" then
    logEvent (LEvent.act "action_run_generic_app just_after_launch") w
  else if action = "JustBeforeExit" then
    logEvent (LEvent.act "action_run_generic_app just_before_exit") w
  else logEvent (LEvent.msg ("  - Unknown action: " ++ action)) w

/-- The dispatch loop of `execute_sequence` over an already-tokenized list. -/
def run_tokens (is_exit : Bool) : List String → World → World
  | [], w => w
  | t :: rest, w => run_tokens is_exit rest (execute_action t is_exit w)

/-- `execute_sequence` (launcher.c:1077-1095) as a state transformer: tokenize
the sequence string and dispatch each surviving token in order. -/
def execute_sequence (s : String) (is_exit : Bool) (w : World) : World :=
  run_tokens is_exit (execute_sequence_tokens s) w

/-- A concrete starting world: hide-taskbar configured, taskbar window found
and visible, nothing hidden yet, empty trace. -/
def w0 : World :=
  ⟨true, true, true, false, []⟩

/-- C7: a token with no registered handler only logs the action name and an
"Unknown action" diagnostic, leaving every other component of the run state
untouched — so it can never abort dispatch of the remaining tokens — and the
sequence `"Bogus,Taskbar"` dispatched with the exit flag true still ends with
the desktop furniture shown and the diagnostic for `Bogus` in the trace. -/
theorem unknown_action_nonfatal :
    (∀ a is_exit w, a ∉ knownActions →
        execute_action a is_exit w
          = { w with events := w.events ++ [LEvent.msg a,
                LEvent.msg ("  - Unknown action: " ++ a)] })
  ∧ (execute_sequence "Bogus,Taskbar" true w0).taskbarVisible = true
  ∧ LEvent.msg "  - Unknown action: Bogus" ∈ (execute_sequence "Bogus,Taskbar" true w0).events := by
  refine ⟨?_, by decide, by decide⟩
  intro a is_exit w h
  simp only [knownActions, List.mem_cons, List.not_mem_nil, or_false, not_or] at h
  obtain ⟨h1, h2, h3, h4, h5, h6, h7, h8, h9, h10, h11, h12, h13, h14, h15, h16, h17, h18⟩ := h
  simp [execute_action, logEvent, h1, h2, h3, h4, h5, h6, h7, h8, h9, h10,
        h11, h12, h13, h14, h15, h16, h17, h18]

/-- C7 witness: `Bogus` is not a registered action name, and dispatching it on
the concrete world `w0` only appends the two log lines. -/
theorem unknown_action_nonfatal_witness :
    "Bogus" ∉ knownActions
  ∧ execute_action "Bogus" true w0
      = { w0 with events := w0.events ++ [LEvent.msg "Bogus",
            LEvent.msg "  - Unknown action: Bogus"] } :=
  ⟨by decide, unknown_action_nonfatal.1 "Bogus" true w0 (by decide)⟩

/-- C9: with the hide-taskbar option set and the taskbar window reachable,
running the launch sequence `"No-TB"` (exit flag false) hides the desktop
furniture and records that this run hid it, and running the exit sequence
`"Taskbar"` (exit flag true) from any state whatsoever in which the taskbar
window is reachable — regardless of what happened in between — shows the
furniture again. -/
theorem taskbar_hidden_then_shown (w w2 : World)
    (hcfg : w.hide_taskbar = true) (hfound : w.taskbarFound = true)
    (hfound2 : w2.taskbarFound = true) :
    (execute_sequence "No-TB" false w).taskbarVisible = false
  ∧ (execute_sequence "No-TB" false w).taskbarWasHidden = true
  ∧ (execute_sequence "Taskbar" true w2).taskbarVisible = true := by
  have h1 : execute_sequence_tokens "No-TB" = ["No-TB"] := by decide
  have h2 : execute_sequence_tokens "Taskbar" = ["Taskbar"] := by decide
  refine ⟨?_, ?_, ?_⟩
  · unfold execute_sequence
    rw [h1]
    simp [run_tokens, execute_action, logEvent, action_hide_taskbar,
          action_show_taskbar, set_taskbar_visibility, hcfg, hfound]
  · unfold execute_sequence
    rw [h1]
    simp [run_tokens, execute_action, logEvent, action_hide_taskbar,
          action_show_taskbar, set_taskbar_visibility, hcfg, hfound]
  · unfold execute_sequence
    rw [h2]
    simp [run_tokens, execute_action, logEvent, action_hide_taskbar,
          action_show_taskbar, set_taskbar_visibility, hfound2]

/-- C9 witness: the scenario on the concrete world `w0`, with the exit
sequence run from a deliberately scrambled intermediate state. -/
theorem taskbar_hidden_then_shown_witness :
    w0.hide_taskbar = true ∧ w0.taskbarFound = true
  ∧ (World.mk false true false true [LEvent.act "noise"]).taskbarFound = true
  ∧ (execute_sequence "No-TB" false w0).taskbarVisible = false
  ∧ (execute_sequence "Taskbar" true
        (World.mk false true false true [LEvent.act "noise"])).taskbarVisible = true := by
  have h := taskbar_hidden_then_shown w0
      (World.mk false true false true [LEvent.act "noise"]) rfl rfl rfl
  exact ⟨rfl, rfl, rfl, h.1, h.2.2⟩

/-! ## Exit paths and the Cleanup Guard (`ensure_cleanup`) -/

/-- The top-level calls that the exit paths of the launcher make, in order.
`ensureCleanup` is `ensure_cleanup` (launcher.c:1191-1206); `trayCleanupIcon`
is `tray_cleanup` (tray icon/window teardown only, tray_menu.c:120-135);
`exitProcess` and `returnFromMain` end the process. -/
inductive MainCall
  | checkInstances
  | loadConfiguration
  | executeLaunchSequence
  | runGameProcess
  | waitGame
  | executeExitSequence
  | terminateGameTree
  | killGameProcess
  | killProcessList
  | ensureCleanup
  | trayCleanupIcon
  | exitProcess (code : Nat)
  | returnFromMain (code : Nat)
deriving DecidableEq, Repr

/-- The call trace of a normal run of `main` (launcher.c:1209-1295) after the
instance lock is acquired: load the configuration, run the launch sequence,
launch and await the game, run the exit sequence, `ensure_cleanup`, return 0. -/
def main_calls_normal : List MainCall :=
  [MainCall.checkInstances, MainCall.loadConfiguration,
   MainCall.executeLaunchSequence, MainCall.runGameProcess, MainCall.waitGame,
   MainCall.executeExitSequence, MainCall.ensureCleanup,
   MainCall.returnFromMain 0]

/-- The call trace of `main` when `load_configuration` fails after
`check_instances` has already written the lock file (launcher.c:1251-1266):
it returns 1 directly. -/
def main_calls_config_failure : List MainCall :=
  [MainCall.checkInstances, MainCall.loadConfiguration,
   MainCall.returnFromMain 1]

/-- `tray_stop_game` (tray_menu.c:240-254): run the exit sequence, then
terminate the game's process tree if a game handle is held. -/
def tray_stop_game_calls (gameLive : Bool) : List MainCall :=
  MainCall.executeExitSequence ::
    (if gameLive then [MainCall.terminateGameTree] else [])

/-- `tray_exit_launcher` (tray_menu.c:323-334): stop the game, tear down the
tray icon, and `ExitProcess(0)`. -/
def tray_exit_launcher_calls (gameLive : Bool) : List MainCall :=
  tray_stop_game_calls gameLive ++ [MainCall.trayCleanupIcon, MainCall.exitProcess 0]

/-- `tray_kill_all` (tray_menu.c:259-277): kill the game process if held
(zeroing the stored handle), run the kill list, `ensure_cleanup`, then exit
via `tray_exit_launcher` (whose stop step finds no live game handle). -/
def tray_kill_all_calls (gameLive : Bool) : List MainCall :=
  (if gameLive then [MainCall.killGameProcess] else []) ++
    [MainCall.killProcessList, MainCall.ensureCleanup] ++
    tray_exit_launcher_calls false

/-- C1 (code bug): `ensure_cleanup` runs before exit on the normal path and on
the tray "kill" path, but the tray "exit" request reaches `ExitProcess(0)`
without ever invoking `ensure_cleanup`, the tray "stop" request never invokes
it either, and `main` returns on a configuration-load failure after the lock
file was written without invoking it — so on those paths the desktop
furniture, the registry, the borderless handle, and the lock file are not
restored, refuting the claim that every exit path runs the Cleanup Guard. -/
theorem cleanup_guard_exit_paths :
    MainCall.ensureCleanup ∈ main_calls_normal
  ∧ (∀ g, MainCall.ensureCleanup ∈ tray_kill_all_calls g)
  ∧ (MainCall.ensureCleanup ∉ tray_exit_launcher_calls true
       ∧ MainCall.exitProcess 0 ∈ tray_exit_launcher_calls true)
  ∧ MainCall.ensureCleanup ∉ tray_stop_game_calls true
  ∧ (MainCall.ensureCleanup ∉ main_calls_config_failure
       ∧ MainCall.returnFromMain 1 ∈ main_calls_config_failure) := by
  refine ⟨by decide, ?_, by decide, by decide, by decide⟩
  intro g
  cases g <;> decide

end Launcher
